import Mathlib

/-!
Verification of the Aviatrix Python SDK request/response pipeline
(`src/aviatrix/__init__.py`, the Python 3 package) against its
natural-language specification.

The embedding models:
* JSON values (`JsonVal`) and Python dict semantics over association lists;
* Python 3 data semantics that matter here: `bytes` vs `str` comparison
  (`PyData`, `pyEq`), truthiness (`pyTruthy`), subscripting (`pyGetItem`),
  and the `in` operator (`pyContains`);
* the Python 3 `json.loads` decoder (`jsonLoads`), a recursive-descent
  parser producing Python-3-style `JSONDecodeError` messages
  ("Expecting value: line 1 column C (char N)"; line numbers assume a
  single-line body, which every body considered here is); in particular it
  never produces the Python 2 message "No JSON object could be decoded";
* the `Aviatrix` object state and the methods the claims are about:
  `__init__`, `_avx_api_call`, `login`, `create_gateway` (parameter
  shaping), and `get_gateway_by_name` (the scan over a gateway list).

The HTTP transport and TLS context are external collaborators: a call is
modelled as a function of the session state, the request ingredients, and
the raw response body that `response.read()` returned (a `bytes` value).
URL construction and `urlencode` are not modelled; no claim depends on
them.
-/

/-- JSON values as decoded by `json.loads`: strings, integers, booleans,
`null`, arrays, and objects (association lists in insertion order, as
Python dicts preserve insertion order). Fractional numbers are not needed
by any claim and are not modelled. -/
inductive JsonVal where
  | str (s : String)
  | num (n : Int)
  | bool (b : Bool)
  | null
  | arr (xs : List JsonVal)
  | obj (fields : List (String × JsonVal))

/-- Association list standing for a Python dict (string keys). -/
abbrev Dict := List (String × JsonVal)

/-- Python `k in d` for a dict: key membership. -/
def dictContains (d : Dict) (k : String) : Bool :=
  d.any (fun p => p.1 == k)

/-- Python `d[k]` lookup on a dict, `none` when the key is absent. -/
def dictGet (d : Dict) (k : String) : Option JsonVal :=
  (d.find? (fun p => p.1 == k)).map (fun p => p.2)

/-- Python `d[k] = v`: overwrite in place (keeping the key's position)
when the key exists, else append, matching dict insertion-order
semantics. -/
def dictSet (d : Dict) (k : String) (v : JsonVal) : Dict :=
  if dictContains d k then
    d.map (fun p => if p.1 == k then (k, v) else p)
  else
    d ++ [(k, v)]

/-- A Python value that is either a `bytes` object or a `str` object,
both carrying text. `response.read()` yields `bytes` in Python 3. -/
inductive PyData where
  | bytes (text : String)
  | str (text : String)

/-- The text carried by a `PyData`. -/
def pyDataText : PyData → String
  | .bytes t => t
  | .str t => t

/-- Python 3 `==` between `bytes`/`str` values: equal kinds compare their
content, while `bytes == str` is always `False` (Python 3 never considers
a bytes object equal to a str object). -/
def pyEq : PyData → PyData → Bool
  | .bytes a, .bytes b => a == b
  | .str a, .str b => a == b
  | _, _ => false

/-- Python slice `d[0:n]`: a slice of `bytes` is `bytes`, a slice of
`str` is `str`. -/
def pySliceTo : PyData → Nat → PyData
  | .bytes t, n => .bytes (t.take n)
  | .str t, n => .str (t.take n)

/-- Python exceptions that the modelled code can raise.
`jsonDecodeError` stands for `json.JSONDecodeError`, which is a subclass
of `ValueError`; `valueErrorBytes` is a `ValueError` constructed from a
bytes object (the `raise ValueError(json_response)` line);
`restException` is `Aviatrix.RESTException` carrying the `reason`
value. -/
inductive PyErr where
  | valueError (msg : String)
  | valueErrorBytes (d : PyData)
  | jsonDecodeError (msg : String)
  | restException (reason : JsonVal)
  | keyError (key : String)
  | typeError (msg : String)
  | attributeError (msg : String)

/-- Whether an exception is (a subclass of) `ValueError`, hence caught by
`except ValueError`. -/
def isValueError : PyErr → Bool
  | .valueError _ => true
  | .valueErrorBytes _ => true
  | .jsonDecodeError _ => true
  | _ => false

/-- Whether an exception is an `AttributeError`, hence caught by
`except AttributeError`. -/
def isAttributeError : PyErr → Bool
  | .attributeError _ => true
  | _ => false

/-- Python `str(e)` of an exception, used by the pipeline's
`str(nojson) == 'No JSON object could be decoded'` comparison. For the
bytes-carrying `ValueError` (a dead code path, see
`pyEq`) the text of the bytes is used. -/
def pyErrStr : PyErr → String
  | .valueError m => m
  | .valueErrorBytes d => pyDataText d
  | .jsonDecodeError m => m
  | .restException _ => "Aviatrix REST API"
  | .keyError k => k
  | .typeError m => m
  | .attributeError m => m

/-- Python truthiness of a decoded JSON value: `False`, `0`, `""`, `[]`,
`` empty dict `` and `None` are falsy. -/
def pyTruthy : JsonVal → Bool
  | .bool b => b
  | .null => false
  | .num n => n != 0
  | .str s => s != ""
  | .arr xs => !xs.isEmpty
  | .obj fs => !fs.isEmpty

/-- Python `==` between a decoded JSON value and a `str`: only a string
value can equal a string; every other type compares unequal. -/
def jsonEqStr (v : JsonVal) (s : String) : Bool :=
  match v with
  | .str t => t == s
  | _ => false

/-- Python subscript `v[k]` with a string key on a decoded JSON value:
dict lookup (missing key raises `KeyError`); string/list subscripts with
a str key raise `TypeError`; so do the remaining scalar types and
`None`. -/
def pyGetItem (v : JsonVal) (k : String) : Except PyErr JsonVal :=
  match v with
  | .obj fs =>
    match dictGet fs k with
    | some x => .ok x
    | none => .error (.keyError k)
  | .str _ => .error (.typeError "string indices must be integers")
  | .arr _ => .error (.typeError "list indices must be integers or slices, not str")
  | .null => .error (.typeError "NoneType object is not subscriptable")
  | _ => .error (.typeError "object is not subscriptable")

/-- Whether string `sub` occurs inside string `s` (Python `sub in s`). -/
def strOccursIn (sub s : String) : Bool :=
  (s.splitOn sub).length != 1

/-- Python `k in v` with a string `k` on a decoded JSON value: key test
on a dict, element equality on a list, substring test on a string, and a
`TypeError` on the non-iterable types (`int`, `bool`, `None`). -/
def pyContains (v : JsonVal) (k : String) : Except PyErr Bool :=
  match v with
  | .obj fs => .ok (dictContains fs k)
  | .arr xs => .ok (xs.any (fun x => jsonEqStr x k))
  | .str s => .ok (strOccursIn k s)
  | _ => .error (.typeError "argument is not iterable")

/-- The double-quote character. -/
def quoteChar : Char := Char.ofNat 34

/-- The backslash character. -/
def backslashChar : Char := Char.ofNat 92

/-- The opening-brace character. -/
def obraceChar : Char := Char.ofNat 123

/-- The closing-brace character. -/
def cbraceChar : Char := Char.ofNat 125

/-- The opening-bracket character. -/
def obrackChar : Char := Char.ofNat 91

/-- The closing-bracket character. -/
def cbrackChar : Char := Char.ofNat 93

/-- The comma character. -/
def commaChar : Char := Char.ofNat 44

/-- The colon character. -/
def colonChar : Char := Char.ofNat 58

/-- The minus-sign character. -/
def minusChar : Char := Char.ofNat 45

/-- JSON whitespace skipping; returns the remaining characters and the
updated character index. -/
def skipWs : List Char → Nat → List Char × Nat
  | c :: cs, i =>
    if c == ' ' || c == '\t' || c == '\n' || c == '\r' then skipWs cs (i + 1)
    else (c :: cs, i)
  | [], i => ([], i)

/-- The `JSONDecodeError` message Python 3 produces when no JSON value
starts at character index `i` (single-line bodies). -/
def expectingValueMsg (i : Nat) : String :=
  "Expecting value: line 1 column " ++ toString (i + 1) ++ " (char " ++ toString i ++ ")"

/-- The `JSONDecodeError` message for an unterminated string literal
starting at character index `i`. -/
def unterminatedMsg (i : Nat) : String :=
  "Unterminated string starting at: line 1 column " ++ toString (i + 1)
    ++ " (char " ++ toString i ++ ")"

/-- The `JSONDecodeError` message for a missing comma delimiter at
character index `i`. -/
def delimiterMsg (i : Nat) : String :=
  "Expecting delimiter: line 1 column " ++ toString (i + 1) ++ " (char " ++ toString i ++ ")"

/-- The `JSONDecodeError` message for a missing property name at
character index `i`. -/
def propertyNameMsg (i : Nat) : String :=
  "Expecting property name enclosed in double quotes: line 1 column "
    ++ toString (i + 1) ++ " (char " ++ toString i ++ ")"

/-- Translation of a character following a backslash in a JSON string
literal (the escapes a claim input could contain; `\uXXXX` escapes are
not modelled, no claim uses them). -/
def unescapeChar (e : Char) : Char :=
  if e == 'n' then '\n'
  else if e == 't' then '\t'
  else if e == 'r' then '\r'
  else if e == 'b' then Char.ofNat 8
  else if e == 'f' then Char.ofNat 12
  else e

/-- Parse the remainder of a JSON string literal whose opening quote (at
index `start`) has been consumed; `i` is the index of the next character
and `acc` the content parsed so far. Returns the content, the remaining
characters and the next index. -/
def parseStrAux (start : Nat) : List Char → Nat → String → Except String (String × List Char × Nat)
  | [], _, _ => .error (unterminatedMsg start)
  | c :: cs, i, acc =>
    if c == quoteChar then .ok (acc, cs, i + 1)
    else if c == backslashChar then
      match cs with
      | [] => .error (unterminatedMsg start)
      | e :: cs2 => parseStrAux start cs2 (i + 2) (acc.push (unescapeChar e))
    else parseStrAux start cs (i + 1) (acc.push c)

/-- Consume a run of decimal digits, accumulating their value. -/
def parseDigits : List Char → Nat → Nat → Nat × List Char × Nat
  | c :: cs, i, acc =>
    if c.isDigit then parseDigits cs (i + 1) (acc * 10 + (c.toNat - 48))
    else (acc, c :: cs, i)
  | [], i, acc => (acc, [], i)

mutual

/-- Parse one JSON value starting at the given characters/index. The
fuel argument only bounds nesting-driven recursion; `jsonLoads` supplies
enough for any input. -/
def parseVal : Nat → List Char → Nat → Except String (JsonVal × List Char × Nat)
  | 0, _, i => .error (expectingValueMsg i)
  | fuel + 1, cs, i =>
    match cs with
    | [] => .error (expectingValueMsg i)
    | 't' :: 'r' :: 'u' :: 'e' :: rest => .ok (.bool true, rest, i + 4)
    | 'f' :: 'a' :: 'l' :: 's' :: 'e' :: rest => .ok (.bool false, rest, i + 5)
    | 'n' :: 'u' :: 'l' :: 'l' :: rest => .ok (.null, rest, i + 4)
    | c :: rest =>
      if c == quoteChar then
        match parseStrAux i rest (i + 1) "" with
        | .error e => .error e
        | .ok (s, cs1, i1) => .ok (.str s, cs1, i1)
      else if c == obraceChar then
        let (cs1, i1) := skipWs rest (i + 1)
        match cs1 with
        | c1 :: cs2 =>
          if c1 == cbraceChar then .ok (.obj [], cs2, i1 + 1)
          else parseMembers fuel cs1 i1 []
        | [] => parseMembers fuel [] i1 []
      else if c == obrackChar then
        let (cs1, i1) := skipWs rest (i + 1)
        match cs1 with
        | c1 :: cs2 =>
          if c1 == cbrackChar then .ok (.arr [], cs2, i1 + 1)
          else parseElems fuel cs1 i1 []
        | [] => .error (expectingValueMsg i1)
      else if c == minusChar then
        match rest with
        | c1 :: _ =>
          if c1.isDigit then
            let (n, cs1, i1) := parseDigits rest (i + 1) 0
            .ok (.num (-(Int.ofNat n)), cs1, i1)
          else .error (expectingValueMsg i)
        | [] => .error (expectingValueMsg i)
      else if c.isDigit then
        let (n, cs1, i1) := parseDigits (c :: rest) i 0
        .ok (.num (Int.ofNat n), cs1, i1)
      else .error (expectingValueMsg i)

/-- Parse the members of a JSON object after its opening brace (and any
whitespace), accumulating fields with dict-overwrite semantics for
duplicate keys as Python's decoder does. -/
def parseMembers : Nat → List Char → Nat → List (String × JsonVal) →
    Except String (JsonVal × List Char × Nat)
  | 0, _, i, _ => .error (expectingValueMsg i)
  | fuel + 1, cs, i, acc =>
    match cs with
    | [] => .error (propertyNameMsg i)
    | c :: rest =>
      if c == quoteChar then
        match parseStrAux i rest (i + 1) "" with
        | .error e => .error e
        | .ok (key, cs1, i1) =>
          let (cs2, i2) := skipWs cs1 i1
          match cs2 with
          | c2 :: cs3 =>
            if c2 == colonChar then
              let (cs4, i4) := skipWs cs3 (i2 + 1)
              match parseVal fuel cs4 i4 with
              | .error e => .error e
              | .ok (v, cs5, i5) =>
                let acc2 := dictSet acc key v
                let (cs6, i6) := skipWs cs5 i5
                match cs6 with
                | c6 :: cs7 =>
                  if c6 == commaChar then
                    let (cs8, i8) := skipWs cs7 (i6 + 1)
                    parseMembers fuel cs8 i8 acc2
                  else if c6 == cbraceChar then .ok (.obj acc2, cs7, i6 + 1)
                  else .error (delimiterMsg i6)
                | [] => .error (delimiterMsg i6)
            else .error (delimiterMsg i2)
          | [] => .error (delimiterMsg i2)
      else .error (propertyNameMsg i)

/-- Parse the elements of a JSON array after its opening bracket (and
any whitespace). -/
def parseElems : Nat → List Char → Nat → List JsonVal →
    Except String (JsonVal × List Char × Nat)
  | 0, _, i, _ => .error (expectingValueMsg i)
  | fuel + 1, cs, i, acc =>
    match parseVal fuel cs i with
    | .error e => .error e
    | .ok (v, cs1, i1) =>
      let (cs2, i2) := skipWs cs1 i1
      match cs2 with
      | c2 :: cs3 =>
        if c2 == commaChar then
          let (cs4, i4) := skipWs cs3 (i2 + 1)
          parseElems fuel cs4 i4 (acc ++ [v])
        else if c2 == cbrackChar then .ok (.arr (acc ++ [v]), cs3, i2 + 1)
        else .error (delimiterMsg i2)
      | [] => .error (delimiterMsg i2)

end

/-- Model of Python 3 `json.loads` on the body text (stdlib code, not
repository code): decode one JSON value, allowing surrounding
whitespace; anything left over is the "Extra data" error; a body that
starts with no JSON value fails with "Expecting value: line 1 column 1
(char 0)" exactly as Python 3 reports it. The error message is never the
Python 2 message "No JSON object could be decoded". -/
def jsonLoads (s : String) : Except String JsonVal :=
  let cs := s.toList
  let (cs1, i1) := skipWs cs 0
  match parseVal (cs.length + 1) cs1 i1 with
  | .error e => .error e
  | .ok (v, rest, i2) =>
    let (rest2, i3) := skipWs rest i2
    if rest2.isEmpty then .ok v
    else .error ("Extra data: line 1 column " ++ toString (i3 + 1) ++ " (char " ++ toString i3 ++ ")")

/-- The value of the `self.results` attribute: the initial empty list and
the `results` payload are JSON values, the failure branch stores Python
`None`, and the (dead) plain-text branch stores the raw bytes body. -/
inductive ResultsVal where
  | pyNone
  | json (v : JsonVal)
  | raw (b : PyData)

/-- The mutable attributes of an `Aviatrix` object that the claims are
about. The TLS context attributes (`ctx`) configure the external HTTP
transport and carry no information used by any claim. `customer_id` is a
`JsonVal` because `login` assigns it whatever `self.result['CID']` holds;
it starts as the empty string. -/
structure AviatrixState where
  controller_ip : String
  customer_id : JsonVal
  results : ResultsVal
  result : Option JsonVal

/-- `Aviatrix.__init__`: requires a non-empty (truthy) controller
address, else raises `ValueError('Aviatrix Controller IP is required')`
before establishing any state; on success initialises `customer_id` to
`''`, `results` to `[]` and `result` to `None`. -/
def aviatrixInit (controller_ip : String) : Except PyErr AviatrixState :=
  if controller_ip == "" then
    .error (.valueError "Aviatrix Controller IP is required")
  else
    .ok { controller_ip := controller_ip
          customer_id := .str ""
          results := .json (.arr [])
          result := none }

/-- The parameter-merging step of `_avx_api_call`:
`new_parameters = dict(parameters)` (a copy), then
`new_parameters['action'] = action` and
`new_parameters['CID'] = self.customer_id`. -/
def buildNewParameters (customer_id : JsonVal) (action : String) (parameters : Dict) : Dict :=
  dictSet (dictSet parameters "action" (.str action)) "CID" customer_id

/-- The `try:` block of `_avx_api_call`'s response handling, lines
128-137: decode the body with `json.loads` (setting `self.result` only
when decoding succeeds), then discriminate on the `return` field using
Python `in`/subscript/truthiness semantics. On a falsy `return`,
`self.results = None` happens before `self.result['reason']` is
evaluated, and `RESTException(reason)` is raised; on a truthy `return`,
`self.results = self.result['results']` (a missing `results` key raises
`KeyError`); with no `return` field, `self.results = self.result`. -/
def tryDecodeBody (st : AviatrixState) (json_response : PyData) :
    AviatrixState × Except PyErr Unit :=
  match jsonLoads (pyDataText json_response) with
  | .error msg => (st, .error (.jsonDecodeError msg))
  | .ok v =>
    let st1 := { st with result := some v }
    match pyContains v "return" with
    | .error e => (st1, .error e)
    | .ok hasReturn =>
      if hasReturn then
        match pyGetItem v "return" with
        | .error e => (st1, .error e)
        | .ok ret =>
          if !pyTruthy ret then
            let st2 := { st1 with results := .pyNone }
            match pyGetItem v "reason" with
            | .error e => (st2, .error e)
            | .ok reason => (st2, .error (.restException reason))
          else
            match pyGetItem v "results" with
            | .error e => (st1, .error e)
            | .ok res => ({ st1 with results := .json res }, .ok ())
      else
        ({ st1 with results := .json v }, .ok ())

/-- Response handling of `_avx_api_call`, lines 122-142, applied to the
`bytes` body returned by `response.read()`. First the check
`json_response[0:6] == 'Error:'` (a Python 3 bytes-vs-str comparison,
see `pyEq`), which would raise `ValueError(json_response)`; then the
`try:` block; finally `except ValueError as nojson:`, which absorbs the
error and stores the raw body as `self.results` only when
`str(nojson) == 'No JSON object could be decoded'`, and re-raises it
otherwise. Exceptions that are not `ValueError`s propagate. -/
def processResponse (st : AviatrixState) (json_response : PyData) :
    AviatrixState × Except PyErr Unit :=
  if pyEq (pySliceTo json_response 6) (.str "Error:") then
    (st, .error (.valueErrorBytes json_response))
  else
    let tried := tryDecodeBody st json_response
    match tried.2 with
    | .ok _ => (tried.1, .ok ())
    | .error e =>
      if isValueError e then
        if pyErrStr e == "No JSON object could be decoded" then
          ({ tried.1 with results := .raw json_response }, .ok ())
        else (tried.1, .error e)
      else (tried.1, .error e)

/-- What one `_avx_api_call` invocation produces: the updated object
state, the final value of the caller's `parameters` dict object (the
source copies it into `new_parameters` before mutating, so every write
targets the copy), the transmitted parameter mapping, and the call's
outcome. -/
structure CallResult where
  state : AviatrixState
  callerParams : Dict
  transmitted : Dict
  outcome : Except PyErr Unit

/-- `Aviatrix._avx_api_call(method, action, parameters)` given the raw
response body the HTTP request would return. Builds `new_parameters`
from a copy of `parameters` plus the `action` and `CID` keys; a method
other than `'GET'`/`'POST'` raises `ValueError` before any request is
issued; otherwise the two methods differ only in how the request is
encoded (not modelled) and the response body is processed identically.
The `is_backend` flag only selects the base path of the URL and is not
modelled. -/
def avx_api_call (st : AviatrixState) (method action : String)
    (parameters : Dict) (body : PyData) : CallResult :=
  let new_parameters := buildNewParameters st.customer_id action parameters
  if method == "GET" || method == "POST" then
    let pr := processResponse st body
    { state := pr.1, callerParams := parameters, transmitted := new_parameters, outcome := pr.2 }
  else
    { state := st, callerParams := parameters, transmitted := new_parameters,
      outcome := .error (.valueError ("Invalid method " ++ method)) }

/-- Python subscript `self.result['k']`: `self.result` is `None` before
any successful decode (`TypeError` when subscripted), else the decoded
value subscripted with `pyGetItem`. -/
def resultGetItem (r : Option JsonVal) (k : String) : Except PyErr JsonVal :=
  match r with
  | none => .error (.typeError "NoneType object is not subscriptable")
  | some v => pyGetItem v k

/-- `Aviatrix.login(username, password)` given the raw response body.
Empty username or password raises
`ValueError('Username and password are required')` before any call is
made. Otherwise `_avx_api_call('GET', 'login', ...)` runs (its errors
propagate), and then, inside `try: ... except AttributeError:`, a truthy
`self.result['return']` makes `self.customer_id = self.result['CID']`;
only `AttributeError` is absorbed by the handler, every other exception
(for example a `KeyError` from a missing top-level `CID` key)
propagates. -/
def login (st : AviatrixState) (username password : String) (body : PyData) :
    AviatrixState × Except PyErr Unit :=
  if username == "" || password == "" then
    (st, .error (.valueError "Username and password are required"))
  else
    let r := avx_api_call st "GET" "login"
      [("username", .str username), ("password", .str password)] body
    match r.outcome with
    | .error e => (r.state, .error e)
    | .ok _ =>
      match resultGetItem r.state.result "return" with
      | .error e =>
        if isAttributeError e then (r.state, .ok ()) else (r.state, .error e)
      | .ok ret =>
        if pyTruthy ret then
          match resultGetItem r.state.result "CID" with
          | .error e =>
            if isAttributeError e then (r.state, .ok ()) else (r.state, .error e)
          | .ok cid => ({ r.state with customer_id := cid }, .ok ())
        else (r.state, .ok ())

/-- `Aviatrix.CREATE_GW_ALLOWED`: the fixed allow-list of keyword
arguments `create_gateway` forwards. -/
def CREATE_GW_ALLOWED : List String :=
  ["cloud_type", "account_name", "gw_name", "vpc_reg",
   "zone", "vpc_net", "vpc_size", "vpc_id", "enable_nat",
   "vpn_access", "cidr", "otp_mode", "duo_integration_key",
   "duo_secret_key", "duo_api_hostname", "duo_push_mode",
   "okta_url", "okta_token", "okta_username_suffix",
   "enable_elb", "elb_name", "enable_client_cert_sharing",
   "max_conn", "split_tunnel", "additional_cidrs",
   "nameservers", "search_domains", "enable_pbr",
   "pbr_subnet", "pbr_default_gateway", "pbr_logging",
   "enable_ldap", "ldap_server", "ldap_bind_dn",
   "ldap_password", "ldap_base_dn", "ldap_user_attr",
   "ldap_additional_req", "ldap_use_ssl",
   "ldap_client_cert", "ldap_ca_cert", "save_template",
   "allocate_new_eip"]

/-- The parameter mapping `Aviatrix.create_gateway` builds: the seven
required parameters, then each keyword argument in order, kept only when
its key is in `CREATE_GW_ALLOWED`. -/
def create_gateway_params (account cloud_type gw_name vpc_id vpc_region vpc_size vpc_net : JsonVal)
    (kwargs : List (String × JsonVal)) : Dict :=
  let params : Dict :=
    [("account_name", account), ("cloud_type", cloud_type), ("gw_name", gw_name),
     ("vpc_id", vpc_id), ("vpc_reg", vpc_region), ("vpc_size", vpc_size),
     ("vpc_net", vpc_net)]
  kwargs.foldl
    (fun p kv => if CREATE_GW_ALLOWED.contains kv.1 then dictSet p kv.1 kv.2 else p)
    params

/-- `Aviatrix.create_gateway`: shape the parameters and invoke the
pipeline with `POST`/`connect_container`. -/
def create_gateway (st : AviatrixState)
    (account cloud_type gw_name vpc_id vpc_region vpc_size vpc_net : JsonVal)
    (kwargs : List (String × JsonVal)) (body : PyData) : CallResult :=
  avx_api_call st "POST" "connect_container"
    (create_gateway_params account cloud_type gw_name vpc_id vpc_region vpc_size vpc_net kwargs)
    body

/-- Whether a decoded JSON value is a dict containing the key `k`. -/
def hasKey (g : JsonVal) (k : String) : Bool :=
  match g with
  | .obj fs => dictContains fs k
  | _ => false

/-- The loop body of `Aviatrix.get_gateway_by_name`: scan the gateway
records in order, returning the first whose `gwy['vpc_name']` equals
`gw_name` (Python `==` against a str), `None` when none matches, and
propagating the exception `gwy['vpc_name']` would raise on a malformed
record. -/
def scanGateways (items : List JsonVal) (gw_name : String) :
    Except PyErr (Option JsonVal) :=
  match items with
  | [] => .ok none
  | g :: rest =>
    match pyGetItem g "vpc_name" with
    | .error e => .error e
    | .ok v =>
      if jsonEqStr v gw_name then .ok (some g)
      else scanGateways rest gw_name

/-- `Aviatrix.get_gateway_by_name` applied to the gateway-list result
`gws` that `list_gateways` returned: `none` models an absent (`None`)
list. `if not gws: return None` covers both `None` and the empty list
(both falsy); otherwise the linear scan runs. -/
def get_gateway_by_name_from (gws : Option (List JsonVal)) (gw_name : String) :
    Except PyErr (Option JsonVal) :=
  match gws with
  | none => .ok none
  | some items =>
    if items.isEmpty then .ok none
    else scanGateways items gw_name

/-- The Boolean predicate `find?` uses to mirror the scan's match test:
the record's `vpc_name` entry equals the looked-up name. -/
def nameMatches (gw_name : String) (g : JsonVal) : Bool :=
  match pyGetItem g "vpc_name" with
  | .ok v => jsonEqStr v gw_name
  | .error _ => false

/-- A fresh session state as constructed by `Aviatrix('10.0.0.1')`. -/
def stFresh : AviatrixState :=
  { controller_ip := "10.0.0.1"
    customer_id := .str ""
    results := .json (.arr [])
    result := none }

/-- Overwriting entries of one key leaves the key set of a dict
unchanged: the rewritten entries keep their key. -/
theorem dictContains_map_overwrite (d : Dict) (k0 k : String) (v : JsonVal) :
    dictContains (d.map (fun p => if p.1 == k0 then (k0, v) else p)) k
      = dictContains d k := by
  induction d with
  | nil => rfl
  | cons p rest ih =>
    have hhead : ((if p.1 == k0 then (k0, v) else p).1 == k) = (p.1 == k) := by
      by_cases hp : p.1 == k0
      · have hpk : p.1 = k0 := beq_iff_eq.mp hp
        simp [hp, hpk]
      · simp [hp]
    simp only [List.map_cons, dictContains, List.any_cons] at *
    rw [hhead, ih]

/-- Key membership after a dict assignment: the assigned key plus the
previous keys. -/
theorem dictContains_dictSet (d : Dict) (k0 k : String) (v : JsonVal) :
    dictContains (dictSet d k0 v) k = (k0 == k || dictContains d k) := by
  unfold dictSet
  split
  · rename_i hc
    rw [dictContains_map_overwrite]
    by_cases hk : k0 == k
    · have hkk : k0 = k := beq_iff_eq.mp hk
      subst hkk
      simp [hk, hc]
    · simp [hk]
  · simp only [dictContains, List.any_append, List.any_cons, List.any_nil]
    cases hk : k0 == k <;> simp [dictContains, hk, Bool.or_comm]

/-- Lookup at a cons cell whose head key matches. -/
theorem dictGet_cons_hit (p : String × JsonVal) (d : Dict) (k : String)
    (hp : (p.1 == k) = true) : dictGet (p :: d) k = some p.2 := by
  simp only [dictGet, List.find?, hp]
  rfl

/-- Lookup at a cons cell whose head key does not match. -/
theorem dictGet_cons_miss (p : String × JsonVal) (d : Dict) (k : String)
    (hp : (p.1 == k) = false) : dictGet (p :: d) k = dictGet d k := by
  simp only [dictGet, List.find?, hp]

/-- Looking up a key after overwriting its entries in place yields the
new value, provided the key was present. -/
theorem dictGet_map_overwrite (d : Dict) (k : String) (v : JsonVal)
    (hc : dictContains d k = true) :
    dictGet (d.map (fun p => if p.1 == k then (k, v) else p)) k = some v := by
  induction d with
  | nil => simp [dictContains] at hc
  | cons p rest ih =>
    simp only [List.map_cons]
    cases hp : p.1 == k with
    | true =>
      rw [if_pos rfl, dictGet_cons_hit (k, v) _ k (by simp)]
    | false =>
      rw [if_neg (by simp), dictGet_cons_miss p _ k hp]
      exact ih (by simpa [dictContains, hp] using hc)

/-- Looking up a freshly appended key yields the appended value,
provided the key was absent before. -/
theorem dictGet_append_new (d : Dict) (k : String) (v : JsonVal)
    (hc : dictContains d k = false) :
    dictGet (d ++ [(k, v)]) k = some v := by
  induction d with
  | nil => exact dictGet_cons_hit (k, v) [] k (by simp)
  | cons p rest ih =>
    have hp : (p.1 == k) = false := by
      cases hpk : p.1 == k
      · rfl
      · simp [dictContains, hpk] at hc
    rw [List.cons_append, dictGet_cons_miss p _ k hp]
    exact ih (by simpa [dictContains, hp] using hc)

/-- Looking up the key just assigned yields the assigned value, whether
the assignment overwrote or appended. -/
theorem dictGet_dictSet (d : Dict) (k : String) (v : JsonVal) :
    dictGet (dictSet d k v) k = some v := by
  unfold dictSet
  cases hc : dictContains d k
  · rw [if_neg (by simp)]
    exact dictGet_append_new d k v hc
  · rw [if_pos rfl]
    exact dictGet_map_overwrite d k v hc

/-- Key membership is definedness of lookup. -/
theorem dictContains_eq_isSome (d : Dict) (k : String) :
    dictContains d k = (dictGet d k).isSome := by
  induction d with
  | nil => rfl
  | cons p rest ih =>
    cases hp : p.1 == k with
    | true =>
      rw [dictGet_cons_hit p rest k hp]
      simp [dictContains, hp]
    | false =>
      rw [dictGet_cons_miss p rest k hp]
      simpa [dictContains, List.any_cons, hp] using ih

/-- Key membership after `create_gateway`'s keyword filter: a key is in
the folded dict iff it was there already or appears in the kwargs and is
allow-listed. -/
theorem createGwFilter_contains (kwargs : List (String × JsonVal)) (d : Dict) (k : String) :
    dictContains
      (kwargs.foldl
        (fun p kv => if CREATE_GW_ALLOWED.contains kv.1 then dictSet p kv.1 kv.2 else p) d) k
      = (dictContains d k
          || (kwargs.any (fun kv => kv.1 == k) && CREATE_GW_ALLOWED.contains k)) := by
  induction kwargs generalizing d with
  | nil => simp
  | cons kv rest ih =>
    simp only [List.foldl_cons, List.any_cons]
    cases ha : CREATE_GW_ALLOWED.contains kv.1 with
    | false =>
      rw [if_neg (by simp), ih]
      cases hk : kv.1 == k with
      | false => simp [hk]
      | true =>
        have hkk : kv.1 = k := beq_iff_eq.mp hk
        subst hkk
        rw [ha]
        simp
    | true =>
      rw [if_pos rfl, ih, dictContains_dictSet]
      cases hk : kv.1 == k with
      | false => simp [hk, Bool.or_assoc]
      | true =>
        have hkk : kv.1 = k := beq_iff_eq.mp hk
        subst hkk
        rw [ha]
        simp [hk]

/-- On a decoded failure envelope (`return` equal to `false` with a
`reason` field) the `try:` block stores the decoded object in `result`,
clears `results` to `None`, and raises `RESTException(reason)`. -/
theorem tryDecodeBody_failure (st : AviatrixState) (body : String) (fields : Dict)
    (reason : JsonVal)
    (hdec : jsonLoads body = .ok (.obj fields))
    (hret : dictGet fields "return" = some (.bool false))
    (hreason : dictGet fields "reason" = some reason) :
    tryDecodeBody st (.bytes body)
      = ({ st with result := some (.obj fields), results := .pyNone },
         .error (.restException reason)) := by
  have hcon : dictContains fields "return" = true := by
    rw [dictContains_eq_isSome, hret]
    rfl
  simp only [tryDecodeBody, pyDataText, hdec, pyContains, hcon, pyGetItem, hret,
    hreason, pyTruthy, Bool.not_false, if_true]

/-- On a decoded success envelope (truthy `return` with a `results`
field) the `try:` block stores the decoded object in `result` and the
`results` payload in `results`, raising nothing. -/
theorem tryDecodeBody_success (st : AviatrixState) (body : String) (fields : Dict)
    (r res : JsonVal)
    (hdec : jsonLoads body = .ok (.obj fields))
    (hret : dictGet fields "return" = some r)
    (hr : pyTruthy r = true)
    (hres : dictGet fields "results" = some res) :
    tryDecodeBody st (.bytes body)
      = ({ st with result := some (.obj fields), results := .json res }, .ok ()) := by
  have hcon : dictContains fields "return" = true := by
    rw [dictContains_eq_isSome, hret]
    rfl
  simp only [tryDecodeBody, pyDataText, hdec, pyContains, hcon, pyGetItem, hret,
    hres, hr, Bool.not_true, if_true, if_false, Bool.false_eq_true]

/-- Lifting `tryDecodeBody_failure` through the `except` wrapper: a
`RESTException` is not a `ValueError`, so the pipeline's response
handling re-raises it unchanged, with `results` cleared. -/
theorem processResponse_failure_envelope (st : AviatrixState) (body : String)
    (fields : Dict) (reason : JsonVal)
    (hdec : jsonLoads body = .ok (.obj fields))
    (hret : dictGet fields "return" = some (.bool false))
    (hreason : dictGet fields "reason" = some reason) :
    processResponse st (.bytes body)
      = ({ st with result := some (.obj fields), results := .pyNone },
         .error (.restException reason)) := by
  simp only [processResponse, pySliceTo, pyEq,
    tryDecodeBody_failure st body fields reason hdec hret hreason, isValueError,
    Bool.false_eq_true, if_false]

/-- Lifting `tryDecodeBody_success` through the `except` wrapper. -/
theorem processResponse_success_envelope (st : AviatrixState) (body : String)
    (fields : Dict) (r res : JsonVal)
    (hdec : jsonLoads body = .ok (.obj fields))
    (hret : dictGet fields "return" = some r)
    (hr : pyTruthy r = true)
    (hres : dictGet fields "results" = some res) :
    processResponse st (.bytes body)
      = ({ st with result := some (.obj fields), results := .json res }, .ok ()) := by
  simp only [processResponse, pySliceTo, pyEq,
    tryDecodeBody_success st body fields r res hdec hret hr hres,
    Bool.false_eq_true, if_false]

/-- Helper: the scan of `get_gateway_by_name` agrees with `find?` over
gateway records that all carry a `vpc_name` key, and in particular never
raises. -/
theorem scanGateways_eq_find (items : List JsonVal) (n : String)
    (h : ∀ g ∈ items, hasKey g "vpc_name" = true) :
    scanGateways items n = .ok (items.find? (nameMatches n)) := by
  induction items with
  | nil => rfl
  | cons g rest ih =>
    have hg : hasKey g "vpc_name" = true := h g (List.mem_cons_self g rest)
    obtain ⟨v, hv⟩ : ∃ v, pyGetItem g "vpc_name" = .ok v := by
      cases g with
      | obj fs =>
        have hc : dictContains fs "vpc_name" = true := hg
        rw [dictContains_eq_isSome] at hc
        cases hd : dictGet fs "vpc_name" with
        | none =>
          rw [hd] at hc
          exact absurd hc (by simp)
        | some x => exact ⟨x, by simp [pyGetItem, hd]⟩
      | str s => exact absurd hg (by simp [hasKey])
      | num m => exact absurd hg (by simp [hasKey])
      | bool b => exact absurd hg (by simp [hasKey])
      | null => exact absurd hg (by simp [hasKey])
      | arr xs => exact absurd hg (by simp [hasKey])
    simp only [scanGateways, hv, List.find?, nameMatches]
    cases he : jsonEqStr v n with
    | true => rfl
    | false => exact ih (fun g2 hg2 => h g2 (List.mem_cons_of_mem g hg2))

/-- Claim C7: on a gateway-list result whose records all carry a
`vpc_name` entry, `get_gateway_by_name` returns the first record whose
name equals the looked-up name (`find?` in list order), returns the
explicit not-found value `None` when no record matches, and returns
`None` (raising nothing) on an empty or absent list. -/
theorem C7_get_gateway_by_name (items : List JsonVal) (n : String)
    (h : ∀ g ∈ items, hasKey g "vpc_name" = true) :
    get_gateway_by_name_from (some items) n = .ok (items.find? (nameMatches n))
    ∧ get_gateway_by_name_from none n = .ok none := by
  refine ⟨?_, rfl⟩
  cases items with
  | nil => rfl
  | cons g rest =>
    simp only [get_gateway_by_name_from, List.isEmpty_cons, Bool.false_eq_true, if_false]
    exact scanGateways_eq_find (g :: rest) n h

/-- Witness for C7 at a concrete two-record gateway list: the exact
match returns the full record, and the absent-list lookup returns the
not-found value. -/
theorem C7_witness :
    get_gateway_by_name_from
      (some [.obj [("vpc_name", .str "gw1"), ("vpc_size", .str "t2.micro")],
             .obj [("vpc_name", .str "gw2")]]) "gw2"
      = .ok (some (.obj [("vpc_name", .str "gw2")]))
    ∧ get_gateway_by_name_from none "gw2" = .ok none :=
  ⟨(C7_get_gateway_by_name
      [.obj [("vpc_name", .str "gw1"), ("vpc_size", .str "t2.micro")],
       .obj [("vpc_name", .str "gw2")]] "gw2" (by decide)).1.trans rfl,
   (C7_get_gateway_by_name
      [.obj [("vpc_name", .str "gw1"), ("vpc_size", .str "t2.micro")],
       .obj [("vpc_name", .str "gw2")]] "gw2" (by decide)).2⟩

/-- Claim C8: constructing a session with any non-empty controller
address succeeds and establishes the fresh session state, while the
empty address raises `ValueError('Aviatrix Controller IP is required')`
(the ConfigurationError of the spec) and establishes nothing. -/
theorem C8_constructor (ip : String) (h : ip ≠ "") :
    (∃ st, aviatrixInit ip = .ok st ∧ st.controller_ip = ip ∧ st.customer_id = .str ""
        ∧ st.results = .json (.arr []) ∧ st.result = none)
    ∧ aviatrixInit "" = .error (.valueError "Aviatrix Controller IP is required") := by
  constructor
  · refine ⟨{ controller_ip := ip, customer_id := .str "",
              results := .json (.arr []), result := none }, ?_, rfl, rfl, rfl, rfl⟩
    unfold aviatrixInit
    rw [if_neg (by simp [h])]
  · rfl

/-- Witness for C8 at the concrete address `10.0.0.1`. -/
theorem C8_witness :
    (∃ st, aviatrixInit "10.0.0.1" = .ok st ∧ st.controller_ip = "10.0.0.1"
        ∧ st.customer_id = .str "" ∧ st.results = .json (.arr []) ∧ st.result = none)
    ∧ aviatrixInit "" = .error (.valueError "Aviatrix Controller IP is required") :=
  C8_constructor "10.0.0.1" (by decide)

/-- Claim C9: a login with an empty username or an empty password raises
`ValueError('Username and password are required')` with the session
state unchanged, and does so for every possible response body - that is,
before any network request is issued, since the outcome does not depend
on the response at all. -/
theorem C9_login_empty_credentials (st : AviatrixState) (u p : String) (body : PyData)
    (h : u = "" ∨ p = "") :
    login st u p body = (st, .error (.valueError "Username and password are required")) := by
  unfold login
  rcases h with h | h
  · subst h
    rw [if_pos (by simp)]
  · subst h
    rw [if_pos (by simp)]

/-- Witness for C9 at a concrete empty username. -/
theorem C9_witness :
    login stFresh "" "pw" (.bytes "ignored")
      = (stFresh, .error (.valueError "Username and password are required")) :=
  C9_login_empty_credentials stFresh "" "pw" (.bytes "ignored") (Or.inl rfl)

/-- Claim C10: the caller-supplied parameter mapping is left unchanged
by every pipeline call: `_avx_api_call` copies it (`dict(parameters)`)
and every subsequent key assignment targets the copy, so the caller's
dict holds exactly its original entries afterwards. -/
theorem C10_caller_params_unchanged (st : AviatrixState) (method action : String)
    (params : Dict) (body : PyData) :
    (avx_api_call st method action params body).callerParams = params := by
  simp only [avx_api_call]
  split
  · rfl
  · rfl

/-- Counterexample to C5 as stated: the transmitted parameter mapping of
the login call itself does contain the session-token key `CID` (bound to
the pre-login empty token), because `_avx_api_call` injects it
unconditionally for every action. -/
theorem C5_counterexample_login_has_cid :
    dictContains
      (avx_api_call stFresh "GET" "login"
        [("username", .str "admin"), ("password", .str "pw")] (.bytes "x")).transmitted
      "CID" = true := by
  rfl

/-- Claim C5 (amended): for every call through the pipeline - the login
action included - the transmitted parameter mapping contains the
session's current token under the fixed key `CID`; at login time that
value is the pre-login token, the empty string on a fresh session. -/
theorem C5_cid_injected_every_call (st : AviatrixState) (method action : String)
    (params : Dict) (body : PyData) :
    dictGet (avx_api_call st method action params body).transmitted "CID"
      = some st.customer_id := by
  have ht : (avx_api_call st method action params body).transmitted
      = buildNewParameters st.customer_id action params := by
    simp only [avx_api_call]
    split
    · rfl
    · rfl
  rw [ht]
  unfold buildNewParameters
  exact dictGet_dictSet _ "CID" _

/-- Claim C6: a keyword option given to `create_gateway` appears in the
parameter mapping it transmits if and only if its key is in the fixed
allow-list `CREATE_GW_ALLOWED`; keys outside the allow-list are silently
dropped before transmission. -/
theorem C6_create_gateway_allowlist
    (account cloud_type gw_name vpc_id vpc_region vpc_size vpc_net : JsonVal)
    (kwargs : List (String × JsonVal)) (k : String)
    (hk : k ∈ kwargs.map Prod.fst) :
    dictContains
      (create_gateway_params account cloud_type gw_name vpc_id vpc_region vpc_size vpc_net
        kwargs) k
      = CREATE_GW_ALLOWED.contains k := by
  have hany : kwargs.any (fun kv => kv.1 == k) = true := by
    rcases List.mem_map.mp hk with ⟨kv, hmem, hfst⟩
    exact List.any_eq_true.mpr ⟨kv, hmem, by simp [hfst]⟩
  simp only [create_gateway_params]
  rw [createGwFilter_contains, hany, Bool.true_and]
  cases hal : CREATE_GW_ALLOWED.contains k with
  | true => simp
  | false =>
    rw [Bool.or_false]
    cases hcon : dictContains
        [("account_name", account), ("cloud_type", cloud_type), ("gw_name", gw_name),
         ("vpc_id", vpc_id), ("vpc_reg", vpc_region), ("vpc_size", vpc_size),
         ("vpc_net", vpc_net)] k with
    | false => rfl
    | true =>
      exfalso
      simp only [dictContains, List.any_cons, List.any_nil, Bool.or_eq_true,
        Bool.or_false, beq_iff_eq] at hcon
      rcases hcon with h | h | h | h | h | h | h <;>
        first
        | (subst h; exact absurd hal (by decide))

/-- Witness for C6 at a concrete invocation with one allow-listed
option (`enable_nat`, kept) and one unknown option (`bogus`,
dropped). -/
theorem C6_witness :
    dictContains
      (create_gateway_params (.str "acct") (.num 1) (.str "gw") (.str "vpc-1")
        (.str "us-east-1") (.str "t2.micro") (.str "10.0.0.0/24")
        [("enable_nat", .str "yes"), ("bogus", .str "x")]) "enable_nat" = true
    ∧ dictContains
      (create_gateway_params (.str "acct") (.num 1) (.str "gw") (.str "vpc-1")
        (.str "us-east-1") (.str "t2.micro") (.str "10.0.0.0/24")
        [("enable_nat", .str "yes"), ("bogus", .str "x")]) "bogus" = false :=
  ⟨(C6_create_gateway_allowlist (.str "acct") (.num 1) (.str "gw") (.str "vpc-1")
      (.str "us-east-1") (.str "t2.micro") (.str "10.0.0.0/24")
      [("enable_nat", .str "yes"), ("bogus", .str "x")] "enable_nat" (by decide)).trans rfl,
   (C6_create_gateway_allowlist (.str "acct") (.num 1) (.str "gw") (.str "vpc-1")
      (.str "us-east-1") (.str "t2.micro") (.str "10.0.0.0/24")
      [("enable_nat", .str "yes"), ("bogus", .str "x")] "bogus" (by decide)).trans rfl⟩

/-- Counterexample to C1 as stated: on the spec's success envelope with
`CID` nested inside `results`, `login` looks up the top-level
`self.result['CID']`, so the call raises `KeyError('CID')` (which the
`except AttributeError` handler does not catch) and the stored token is
still the empty string, not `abc123`. -/
theorem C1_counterexample_nested_cid :
    (login stFresh "admin" "pw"
        (.bytes "\x7b\"return\": true, \"results\": \x7b\"CID\": \"abc123\"\x7d\x7d")).2
      = .error (.keyError "CID")
    ∧ (login stFresh "admin" "pw"
        (.bytes "\x7b\"return\": true, \"results\": \x7b\"CID\": \"abc123\"\x7d\x7d")).1.customer_id
      = .str "" := by
  exact ⟨rfl, rfl⟩

/-- Claim C1 (amended): for a login call whose response decodes to a
success envelope carrying the session token in a top-level `CID` field
(the shape `login` actually reads: truthy `return`, a `results` payload,
and `CID` beside them), the call returns normally and the session's
stored token equals that `CID` value. -/
theorem C1_login_stores_top_level_cid (st : AviatrixState) (u p body : String)
    (res : JsonVal) (c : String)
    (hu : u ≠ "") (hp : p ≠ "")
    (hdec : jsonLoads body
      = .ok (.obj [("return", .bool true), ("results", res), ("CID", .str c)])) :
    (login st u p (.bytes body)).1.customer_id = .str c
    ∧ (login st u p (.bytes body)).2 = .ok () := by
  have hbe1 : (u == "") = false := beq_eq_false_iff_ne.mpr hu
  have hbe2 : (p == "") = false := beq_eq_false_iff_ne.mpr hp
  have hpr := processResponse_success_envelope st body
    [("return", .bool true), ("results", res), ("CID", .str c)] (.bool true) res
    hdec rfl rfl rfl
  have hlog : login st u p (.bytes body)
      = ({ st with
             result := some (.obj [("return", .bool true), ("results", res), ("CID", .str c)]),
             results := .json res,
             customer_id := .str c }, .ok ()) := by
    unfold login
    rw [hbe1, hbe2, if_neg (by simp)]
    simp only [avx_api_call]
    rw [if_pos (by decide)]
    simp only [hpr, resultGetItem, pyGetItem]
    rfl
  rw [hlog]
  exact ⟨rfl, rfl⟩

/-- Witness for C1's amended theorem at the concrete envelope
`{"return": true, "results": "auth ok", "CID": "abc123"}` (braces
elided): the stored token becomes `abc123`. -/
theorem C1_witness :
    (login stFresh "admin" "pw"
        (.bytes "\x7b\"return\": true, \"results\": \"auth ok\", \"CID\": \"abc123\"\x7d")).1.customer_id
      = .str "abc123"
    ∧ (login stFresh "admin" "pw"
        (.bytes "\x7b\"return\": true, \"results\": \"auth ok\", \"CID\": \"abc123\"\x7d")).2
      = .ok () :=
  C1_login_stores_top_level_cid stFresh "admin" "pw"
    "\x7b\"return\": true, \"results\": \"auth ok\", \"CID\": \"abc123\"\x7d"
    (.str "auth ok") "abc123" (by decide) (by decide) rfl

/-- Claim C2 (code bug, evaluated at the failing input): for the body
`Error: internal failure` the text does begin with the `Error:` marker,
yet `json_response[0:6] == 'Error:'` compares a bytes slice with a str
and is `False` in Python 3, so the branch raising
`ValueError(json_response)` never fires; the call instead raises the
re-raised `JSONDecodeError` from the decode attempt, which does not
carry the body text, and the session state is untouched. -/
theorem C2_error_marker_check_is_dead :
    processResponse stFresh (.bytes "Error: internal failure")
      = (stFresh, .error (.jsonDecodeError "Expecting value: line 1 column 1 (char 0)"))
    ∧ pyEq (pySliceTo (.bytes "Error: internal failure") 6) (.str "Error:") = false
    ∧ ("Error: internal failure".take 6 == "Error:") = true := by
  exact ⟨rfl, rfl, rfl⟩

/-- Claim C4 (code bug, evaluated at the failing input): for the
non-JSON body `pong` the decode raises a `JSONDecodeError` whose Python
3 message is `Expecting value: line 1 column 1 (char 0)`; the `except`
handler compares it with the Python 2 message
`No JSON object could be decoded`, so it re-raises instead of storing
the raw body, and `self.results` keeps its previous value instead of
becoming `pong`. -/
theorem C4_plain_text_body_raises :
    processResponse stFresh (.bytes "pong")
      = (stFresh, .error (.jsonDecodeError "Expecting value: line 1 column 1 (char 0)"))
    ∧ (("Expecting value: line 1 column 1 (char 0)" : String)
        == "No JSON object could be decoded") = false := by
  exact ⟨rfl, rfl⟩

/-- Claim C3: a response body decoding to the failure envelope
`{"return": false, "reason": r}` (braces elided) makes the pipeline
raise `RESTException` carrying `r` and clear `self.results` to `None`,
for either HTTP method; and when that call is `login`, the raised error
propagates and the stored token afterwards equals its value before the
call. -/
theorem C3_failure_envelope_raises (st : AviatrixState) (method action : String)
    (params : Dict) (body : String) (r : String) (u p : String)
    (hm : method = "GET" ∨ method = "POST")
    (hdec : jsonLoads body = .ok (.obj [("return", .bool false), ("reason", .str r)]))
    (hu : u ≠ "") (hp : p ≠ "") :
    (avx_api_call st method action params (.bytes body)).outcome
        = .error (.restException (.str r))
    ∧ (avx_api_call st method action params (.bytes body)).state.results = .pyNone
    ∧ (login st u p (.bytes body)).2 = .error (.restException (.str r))
    ∧ (login st u p (.bytes body)).1.customer_id = st.customer_id := by
  have hbe1 : (u == "") = false := beq_eq_false_iff_ne.mpr hu
  have hbe2 : (p == "") = false := beq_eq_false_iff_ne.mpr hp
  have hpr := processResponse_failure_envelope st body
    [("return", .bool false), ("reason", .str r)] (.str r) hdec rfl rfl
  have hcall : ∀ (m act : String) (ps : Dict), (m == "GET" || m == "POST") = true →
      avx_api_call st m act ps (.bytes body)
        = { state := { st with
                         result := some (.obj [("return", .bool false), ("reason", .str r)]),
                         results := .pyNone },
            callerParams := ps,
            transmitted := buildNewParameters st.customer_id act ps,
            outcome := .error (.restException (.str r)) } := by
    intro m act ps hmm
    simp only [avx_api_call]
    rw [if_pos hmm]
    rw [hpr]
  have hmgp : (method == "GET" || method == "POST") = true := by
    rcases hm with h | h <;> subst h <;> decide
  have hlog : login st u p (.bytes body)
      = ({ st with
             result := some (.obj [("return", .bool false), ("reason", .str r)]),
             results := .pyNone }, .error (.restException (.str r))) := by
    unfold login
    rw [hbe1, hbe2, if_neg (by simp)]
    rw [hcall "GET" "login" [("username", .str u), ("password", .str p)] (by decide)]
  rw [hcall method action params hmgp, hlog]
  exact ⟨rfl, rfl, rfl, rfl⟩

/-- Witness for C3 at the concrete failure envelope
`{"return": false, "reason": "bad creds"}` (braces elided), through a
generic call and through `login`. -/
theorem C3_witness :
    (avx_api_call stFresh "GET" "list_accounts" []
        (.bytes "\x7b\"return\": false, \"reason\": \"bad creds\"\x7d")).outcome
      = .error (.restException (.str "bad creds"))
    ∧ (avx_api_call stFresh "GET" "list_accounts" []
        (.bytes "\x7b\"return\": false, \"reason\": \"bad creds\"\x7d")).state.results
      = .pyNone
    ∧ (login stFresh "admin" "pw"
        (.bytes "\x7b\"return\": false, \"reason\": \"bad creds\"\x7d")).2
      = .error (.restException (.str "bad creds"))
    ∧ (login stFresh "admin" "pw"
        (.bytes "\x7b\"return\": false, \"reason\": \"bad creds\"\x7d")).1.customer_id
      = stFresh.customer_id :=
  C3_failure_envelope_raises stFresh "GET" "list_accounts" []
    "\x7b\"return\": false, \"reason\": \"bad creds\"\x7d" "bad creds" "admin" "pw"
    (Or.inl rfl) rfl (by decide) (by decide)
